import Mathlib

set_option maxRecDepth 8000

/-!
Verification development for the image-security-verification repository.

The engine is embedded shallowly: the Supabase record store becomes a list of
rows, server actions become pure functions over that list plus explicit
session state, and the WebCrypto primitives (SHA-256, RSA-PSS, SPKI import,
base64 transport) are abstracted as an environment record, since they are
platform primitives and not code of this repository.  Every definition
mirrors the control flow of the corresponding TypeScript or SQL source.
-/

/-- A row of the `images` table, as selected by the server actions in
`src/app/actions/admin.ts` and inserted by `uploadImageMetadata` in
`src/app/actions/images.ts`. -/
structure ImageRecord where
  id : String
  fileName : String
  filePath : String
  fileSize : Nat
  fileType : String
  publicUrl : String
  signature : String
  hash : String
  createdAt : String
  userId : String
deriving DecidableEq, Repr

/-- The `images` table contents. -/
abbrev ImageStore := List ImageRecord

/-- Model of supabase-js `.single()`: exactly one row yields that row; zero or
several rows yield the PGRST116 error, which both find actions translate to a
`null` result. -/
def singleRow (rows : List ImageRecord) : Option ImageRecord :=
  match rows with
  | [r] => some r
  | _ => none

/-- Embedding of `findImageByHashAction` (src/app/actions/admin.ts, lines
235-298): reject an empty `currentUserId` with `null` before touching the
store, otherwise select the single row with `hash = hash` and
`user_id = currentUserId`. -/
def findImageByHashAction (store : ImageStore) (hash currentUserId : String) :
    Option ImageRecord :=
  if currentUserId = "" then none
  else singleRow (store.filter (fun r => r.hash == hash && r.userId == currentUserId))

/-- Embedding of `findImageByFileNameAction` (src/app/actions/admin.ts, lines
304-367): reject an empty `currentUserId` with `null` before touching the
store, otherwise select the single row with `file_name = fileName` and
`user_id = currentUserId`. -/
def findImageByFileNameAction (store : ImageStore) (fileName currentUserId : String) :
    Option ImageRecord :=
  if currentUserId = "" then none
  else singleRow (store.filter (fun r => r.fileName == fileName && r.userId == currentUserId))

/-- If a filter produced exactly the singleton `[r]`, the predicate holds of `r`. -/
theorem singleRow_filter_sound {p : ImageRecord → Bool} {l : List ImageRecord}
    {r : ImageRecord} (h : singleRow (l.filter p) = some r) : p r = true := by
  unfold singleRow at h
  rcases hl : l.filter p with _ | ⟨a, _ | ⟨b, tl⟩⟩ <;> rw [hl] at h
  · exact absurd h (by simp)
  · have har : a = r := by simpa using h
    have : r ∈ l.filter p := by rw [hl, har]; exact List.mem_singleton_self r
    exact (List.mem_filter.mp this).2
  · exact absurd h (by simp)

/-- C1: any record returned by `findImageByHashAction` has the requesting
user's id (and the queried hash); any record returned by
`findImageByFileNameAction` has the requesting user's id (and the queried
file name).  A record owned by another user is never returned. -/
theorem findImage_ownership_isolation (store : ImageStore)
    (hash fileName uid : String) (r : ImageRecord) :
    (findImageByHashAction store hash uid = some r →
      r.userId = uid ∧ r.hash = hash) ∧
    (findImageByFileNameAction store fileName uid = some r →
      r.userId = uid ∧ r.fileName = fileName) := by
  constructor
  · intro h
    unfold findImageByHashAction at h
    split at h
    · exact absurd h (by simp)
    · have hp := singleRow_filter_sound h
      have := Bool.and_eq_true_iff.mp hp
      exact ⟨by simpa using this.2, by simpa using this.1⟩
  · intro h
    unfold findImageByFileNameAction at h
    split at h
    · exact absurd h (by simp)
    · have hp := singleRow_filter_sound h
      have := Bool.and_eq_true_iff.mp hp
      exact ⟨by simpa using this.2, by simpa using this.1⟩

/-- A concrete record owned by user `"alice"`. -/
def sampleRecordA : ImageRecord :=
  { id := "1", fileName := "photo.png", filePath := "alice/1-photo.png"
    fileSize := 10, fileType := "image/png", publicUrl := "url1"
    signature := "sigA", hash := "hA", createdAt := "2025-01-01", userId := "alice" }

/-- A concrete record owned by user `"bob"` with the same bytes (same hash and
file name) as `sampleRecordA`. -/
def sampleRecordB : ImageRecord :=
  { id := "2", fileName := "photo.png", filePath := "bob/2-photo.png"
    fileSize := 10, fileType := "image/png", publicUrl := "url2"
    signature := "sigB", hash := "hA", createdAt := "2025-01-02", userId := "bob" }

/-- Witness for C1: on a store holding identical uploads by two users, the
hash lookup for `"alice"` returns her record, and the theorem yields that the
returned owner is `"alice"`. -/
theorem findImage_ownership_isolation_witness :
    findImageByHashAction [sampleRecordA, sampleRecordB] "hA" "alice" = some sampleRecordA ∧
    sampleRecordA.userId = "alice" ∧ sampleRecordA.hash = "hA" := by
  refine ⟨by decide, ?_, ?_⟩
  · exact ((findImage_ownership_isolation [sampleRecordA, sampleRecordB]
      "hA" "photo.png" "alice" sampleRecordA).1 (by decide)).1
  · exact ((findImage_ownership_isolation [sampleRecordA, sampleRecordB]
      "hA" "photo.png" "alice" sampleRecordA).1 (by decide)).2

/-- C9: with an empty (absent) requesting user id, both find actions return
`null` for every store, hash and file name — the guard fires before the
record store is consulted, so no query and no error occurs. -/
theorem findImage_empty_user_returns_null (store : ImageStore)
    (hash fileName : String) :
    findImageByHashAction store hash "" = none ∧
    findImageByFileNameAction store fileName "" = none := by
  exact ⟨rfl, rfl⟩

/-- The character-wise difference loop of `areHashesSimilar`
(src/app/verify/page.tsx, lines 45-61): walk the common prefix of the two
strings and count positions where the characters disagree. -/
def countDiffs : List Char → List Char → Nat
  | [], _ => 0
  | _ :: _, [] => 0
  | a :: as, b :: bs => (if a ≠ b then 1 else 0) + countDiffs as bs

/-- The `differences` value computed by `areHashesSimilar`: mismatches over
the shorter length plus the absolute length difference. -/
def hashDifference (hash1 hash2 : String) : Nat :=
  countDiffs hash1.data hash2.data +
    Int.natAbs ((hash1.length : Int) - (hash2.length : Int))

/-- Embedding of `areHashesSimilar` (src/app/verify/page.tsx, lines 45-61):
the hashes are similar when `differences <= tolerance`, with the default
tolerance 5 used by `verifyImage`. -/
def areHashesSimilar (hash1 hash2 : String) (tolerance : Nat := 5) : Bool :=
  decide (hashDifference hash1 hash2 ≤ tolerance)

/-- The structured result the verify page stores in component state; the
`hasRecordMeta` flag records whether the result carries the found record's
owner/upload metadata (`ownerEmail`/`uploadDate`). -/
structure VerificationResult where
  isVerified : Bool
  message : String
  details : String
  hasRecordMeta : Bool
deriving DecidableEq, Repr

/-- Result of the outer catch block of `verifyImage`: the generic error
verdict, with no record metadata attached. -/
def errorResult (details : String) : VerificationResult :=
  { isVerified := false, message := "Verification Error"
    details := details, hasRecordMeta := false }

/-- Result when neither lookup finds a record (src/app/verify/page.tsx). -/
def notFoundResult : VerificationResult :=
  { isVerified := false, message := "Image Not Found"
    details := "This image has not been registered in our system."
    hasRecordMeta := false }

/-- Result of the out-of-tolerance branch of the name fallback. -/
def contentModifiedResult : VerificationResult :=
  { isVerified := false, message := "Image Has Been Modified"
    details := "An image with this filename exists in our system, but its content has been modified."
    hasRecordMeta := true }

/-- Result when `getUserPublicKeyAction` resolved to `null`: the page reports
that the image exists but cannot be verified, keeping the record metadata. -/
def keyMissingResult : VerificationResult :=
  { isVerified := false, message := "Verification Error"
    details := "Could not retrieve the public key for verification. The image exists but cannot be verified."
    hasRecordMeta := true }

/-- Result of the `catch (keyError)` blocks: key retrieval or use threw. -/
def keyErrorResult (e : String) : VerificationResult :=
  { isVerified := false, message := "Key Verification Error"
    details := "Error retrieving or using public key: " ++ e
    hasRecordMeta := true }

/-- Success result on the exact-hash path. -/
def verifiedExactResult : VerificationResult :=
  { isVerified := true, message := "Image Verified Successfully"
    details := "This image is authentic and has not been modified since it was signed."
    hasRecordMeta := true }

/-- Failure result of the signature check on the exact-hash path. -/
def sigFailedExactResult : VerificationResult :=
  { isVerified := false, message := "Signature Verification Failed"
    details := "The image hash matches but the signature verification failed. This could indicate tampering."
    hasRecordMeta := true }

/-- Success result on the tolerated-difference path. -/
def verifiedSimilarResult : VerificationResult :=
  { isVerified := true, message := "Image Verified Successfully"
    details := "This image is authentic and has not been significantly modified since it was signed."
    hasRecordMeta := true }

/-- Failure result of the signature check on the tolerated-difference path. -/
def sigFailedSimilarResult : VerificationResult :=
  { isVerified := false, message := "Signature Verification Failed"
    details := "The image was found but its signature verification failed. This could indicate tampering."
    hasRecordMeta := true }

/-- The signature-check tail shared by both branches of `verifyImage`
(src/app/verify/page.tsx): resolve the owner's key, import it and run
`verifyFileSignature`; a `null` key yields `keyMissingResult`, a thrown key
error yields `keyErrorResult`, and a thrown verifier error is caught by the
same `catch (keyError)` block.  The second component records whether the
Verifier (`verifyFileSignature`) was invoked. -/
def signatureCheckStep (rec : ImageRecord)
    (getKey : String → Except String (Option String))
    (checkSig : String → String → Except String Bool)
    (okResult failResult : VerificationResult) : VerificationResult × Bool :=
  match getKey rec.userId with
  | .ok none => (keyMissingResult, false)
  | .error e => (keyErrorResult e, false)
  | .ok (some k) =>
    match checkSig rec.signature k with
    | .error e => (keyErrorResult e, true)
    | .ok true => (okResult, true)
    | .ok false => (failResult, true)

/-- Embedding of the decision flow of `verifyImage` in src/app/verify/page.tsx
(lines 515-762 of the user-scoped variant; the legacy variant at lines 63-297
has the same routing): exact-hash lookup first; on a miss, file-name fallback;
a name hit within hash tolerance proceeds to the signature check, outside
tolerance it terminates with `contentModifiedResult`.  `getKey` abstracts the
outcome of `getUserPublicKeyAction` (plus `importPublicKey`) as observed by
the page, and `checkSig` the outcome of `verifyFileSignature` for the fixed
candidate file.  The second component records whether the Verifier ran. -/
def verifyImageClient (store : ImageStore) (uid fileName fileHash : String)
    (getKey : String → Except String (Option String))
    (checkSig : String → String → Except String Bool) :
    VerificationResult × Bool :=
  match findImageByHashAction store fileHash uid with
  | some rec => signatureCheckStep rec getKey checkSig verifiedExactResult sigFailedExactResult
  | none =>
    match findImageByFileNameAction store fileName uid with
    | none => (notFoundResult, false)
    | some rec =>
      if areHashesSimilar fileHash rec.hash 5 then
        signatureCheckStep rec getKey checkSig verifiedSimilarResult sigFailedSimilarResult
      else
        (contentModifiedResult, false)

/-- The loop of `areHashesSimilar` counts exactly the positions below the
shorter length at which the two character sequences disagree. -/
theorem countDiffs_eq_countP (as bs : List Char) :
    countDiffs as bs =
      (List.range (Nat.min as.length bs.length)).countP
        (fun i => decide (as.getD i ' ' ≠ bs.getD i ' ')) := by
  induction as generalizing bs with
  | nil => simp [countDiffs]
  | cons a as ih =>
    cases bs with
    | nil => simp [countDiffs]
    | cons b bs =>
      have hstep : ∀ i ∈ List.range (Nat.min as.length bs.length),
          (((fun i => decide ((a :: as).getD i ' ' ≠ (b :: bs).getD i ' ')) ∘ Nat.succ) i = true
            ↔ (fun i => decide (as.getD i ' ' ≠ bs.getD i ' ')) i = true) := by
        intro i _
        simp [Function.comp, List.getD_cons_succ]
      simp only [countDiffs, List.length_cons, Nat.succ_min_succ,
        List.range_succ_eq_map, List.countP_cons, List.countP_map]
      rw [List.countP_congr hstep, ih bs]
      simp only [List.getD_cons_zero]
      by_cases hab : a = b
      · simp [hab]
      · simp only [hab, decide_not]
        simp [hab]
        omega

/-- C2: in the ContentComparison step (name fallback of `verifyImage`), the
computed difference is the count of disagreeing positions over the shorter
length plus the absolute length difference; a difference of at most 5 routes
to the signature check (the Verifier runs whenever a key is available), and a
difference of 6 or more terminates with the ContentModified verdict without
the Verifier ever being invoked, for every key resolver and verifier. -/
theorem contentComparison_tolerance (store : ImageStore)
    (uid fileName fileHash : String) (rec : ImageRecord)
    (getKey : String → Except String (Option String))
    (checkSig : String → String → Except String Bool)
    (hHash : findImageByHashAction store fileHash uid = none)
    (hName : findImageByFileNameAction store fileName uid = some rec) :
    (hashDifference fileHash rec.hash =
      (List.range (Nat.min fileHash.length rec.hash.length)).countP
        (fun i => decide (fileHash.data.getD i ' ' ≠ rec.hash.data.getD i ' '))
      + Int.natAbs ((fileHash.length : Int) - (rec.hash.length : Int))) ∧
    (hashDifference fileHash rec.hash ≤ 5 →
      ∀ k, getKey rec.userId = .ok (some k) →
        (verifyImageClient store uid fileName fileHash getKey checkSig).2 = true) ∧
    (5 + 1 ≤ hashDifference fileHash rec.hash →
      verifyImageClient store uid fileName fileHash getKey checkSig =
        (contentModifiedResult, false)) := by
  refine ⟨?_, ?_, ?_⟩
  · unfold hashDifference
    rw [countDiffs_eq_countP]
    rfl
  · intro hle k hk
    have hsim : areHashesSimilar fileHash rec.hash 5 = true := decide_eq_true hle
    simp only [verifyImageClient, hHash, hName, hsim, if_true, signatureCheckStep, hk]
    rcases hcs : checkSig rec.signature k with e | b
    · rfl
    · cases b <;> rfl
  · intro hgt
    have hsim : areHashesSimilar fileHash rec.hash 5 = false :=
      decide_eq_false (by omega)
    simp only [verifyImageClient, hHash, hName, hsim]
    rfl

/-- Record used by the C2 witness: stored fingerprint `"aaaaaa"`. -/
def toleranceRec : ImageRecord :=
  { id := "3", fileName := "w.png", filePath := "u/3-w.png"
    fileSize := 4, fileType := "image/png", publicUrl := "url3"
    signature := "sigW", hash := "aaaaaa", createdAt := "2025-02-01", userId := "u" }

/-- Witness for C2: against the stored fingerprint `"aaaaaa"`, the candidate
`"aaaaab"` (difference 1) reaches the Verifier, while the candidate
`"bbbbbbb"` (difference 7) yields the ContentModified verdict with the
Verifier never invoked. -/
theorem contentComparison_tolerance_witness :
    (verifyImageClient [toleranceRec] "u" "w.png" "aaaaab"
        (fun _ => .ok (some "PK")) (fun _ _ => .ok true)).2 = true ∧
    verifyImageClient [toleranceRec] "u" "w.png" "bbbbbbb"
        (fun _ => .ok (some "PK")) (fun _ _ => .ok true) =
      (contentModifiedResult, false) := by
  constructor
  · exact (contentComparison_tolerance [toleranceRec] "u" "w.png" "aaaaab" toleranceRec
      (fun _ => .ok (some "PK")) (fun _ _ => .ok true)
      (by decide) (by decide)).2.1 (by decide) "PK" rfl
  · exact (contentComparison_tolerance [toleranceRec] "u" "w.png" "bbbbbbb" toleranceRec
      (fun _ => .ok (some "PK")) (fun _ _ => .ok true)
      (by decide) (by decide)).2.2 (by decide)

/-- Result of part_003 when neither lookup finds a record. -/
def p3NotFoundResult : VerificationResult :=
  { isVerified := false, message := "Verification Failed"
    details := "This image could not be verified. It may not be registered in your account."
    hasRecordMeta := false }

/-- Result of the hash-mismatch branch of part_003 (strict equality check,
no tolerance). -/
def p3ContentModifiedResult : VerificationResult :=
  { isVerified := false, message := "Image Has Been Modified"
    details := "An image with this filename exists in your account, but its content has been modified since it was originally signed."
    hasRecordMeta := true }

/-- Success result of part_003 on the name-hit path. -/
def p3VerifiedResult : VerificationResult :=
  { isVerified := true, message := "Image Verified Successfully"
    details := "This image is authentic and has not been modified since it was signed."
    hasRecordMeta := true }

/-- Signature failure result of part_003 on the name-hit path. -/
def p3SigFailedResult : VerificationResult :=
  { isVerified := false, message := "Signature Verification Failed"
    details := "The image appears unmodified based on its hash, but the cryptographic signature is invalid. This could indicate sophisticated tampering."
    hasRecordMeta := true }

/-- Success result of part_003 on the renamed (hash-fallback) path. -/
def p3VerifiedRenamedResult : VerificationResult :=
  { isVerified := true, message := "Image Verified Successfully"
    details := "This image is authentic and has not been modified since it was signed, but it may have been renamed."
    hasRecordMeta := true }

/-- Signature failure result of part_003 on the renamed (hash-fallback) path. -/
def p3SigFailedRenamedResult : VerificationResult :=
  { isVerified := false, message := "Signature Verification Failed"
    details := "The image hash matches a registered image, but the cryptographic signature is invalid."
    hasRecordMeta := true }

/-- Signature-check tail of the part_003 variant: there is no inner catch, so
a `null` key or a thrown key/verifier error propagates to the outer catch and
becomes the generic `"Verification Error"` result. -/
def p3SignatureCheck (rec : ImageRecord)
    (getKey : String → Except String (Option String))
    (checkSig : String → String → Except String Bool)
    (okResult failResult : VerificationResult) : VerificationResult × Bool :=
  match getKey rec.userId with
  | .ok none => (errorResult "Could not retrieve public key for verification", false)
  | .error e => (errorResult e, false)
  | .ok (some k) =>
    match checkSig rec.signature k with
    | .error e => (errorResult e, true)
    | .ok true => (okResult, true)
    | .ok false => (failResult, true)

/-- Embedding of the `verifyImage` variant in src/unnamed/part_003 (lines
61-214): the FILE-NAME lookup runs first; only on a name miss is the
fingerprint lookup tried as a fallback; a name hit with a differing stored
hash terminates with the modified verdict by strict equality, without any
tolerance and without a signature check. -/
def verifyImageNameFirst (store : ImageStore) (uid fileName fileHash : String)
    (getKey : String → Except String (Option String))
    (checkSig : String → String → Except String Bool) :
    VerificationResult × Bool :=
  match findImageByFileNameAction store fileName uid with
  | some rec =>
    if rec.hash ≠ fileHash then (p3ContentModifiedResult, false)
    else p3SignatureCheck rec getKey checkSig p3VerifiedResult p3SigFailedResult
  | none =>
    match findImageByHashAction store fileHash uid with
    | none => (p3NotFoundResult, false)
    | some rec =>
      p3SignatureCheck rec getKey checkSig p3VerifiedRenamedResult p3SigFailedRenamedResult

/-- Record reachable by file name for user `"u"`, with stored hash `"h1"`. -/
def namedRec : ImageRecord :=
  { id := "A", fileName := "photo.png", filePath := "u/A-photo.png"
    fileSize := 7, fileType := "image/png", publicUrl := "urlA"
    signature := "sA", hash := "h1", createdAt := "2025-03-01", userId := "u" }

/-- Record of the same user whose stored hash `"h2"` matches the candidate
fingerprint exactly. -/
def hashedRec : ImageRecord :=
  { id := "B", fileName := "other.png", filePath := "u/B-other.png"
    fileSize := 7, fileType := "image/png", publicUrl := "urlB"
    signature := "sB", hash := "h2", createdAt := "2025-03-02", userId := "u" }

/-- C3 (code divergence): on a store where user `"u"` owns both `namedRec`
(matching file name, different hash) and `hashedRec` (matching fingerprint
exactly), the part_003 variant reaches `namedRec` by the name lookup and
terminates with the modified verdict, never invoking the Verifier and never
reaching the exact-fingerprint record — although that record exists for the
user, as the first conjunct shows, and although the page.tsx flow routes to
its signature check (third conjunct).  This refutes the claim that every
verification attempt performs the fingerprint lookup first. -/
theorem verifyImage_lookup_order_divergence :
    findImageByHashAction [namedRec, hashedRec] "h2" "u" = some hashedRec ∧
    verifyImageNameFirst [namedRec, hashedRec] "u" "photo.png" "h2"
        (fun _ => .ok (some "PK")) (fun _ _ => .ok true) =
      (p3ContentModifiedResult, false) ∧
    verifyImageClient [namedRec, hashedRec] "u" "photo.png" "h2"
        (fun _ => .ok (some "PK")) (fun _ _ => .ok true) =
      (verifiedExactResult, true) := by
  refine ⟨by decide, by decide, by decide⟩

/-- When the owner key resolves to `null` or a thrown error, the signature
step of page.tsx yields the key-unavailable results without invoking the
Verifier. -/
theorem signatureCheckStep_no_key (rec : ImageRecord)
    (getKey : String → Except String (Option String))
    (checkSig : String → String → Except String Bool)
    (okResult failResult : VerificationResult) :
    (getKey rec.userId = .ok none →
      signatureCheckStep rec getKey checkSig okResult failResult = (keyMissingResult, false)) ∧
    (∀ e, getKey rec.userId = .error e →
      signatureCheckStep rec getKey checkSig okResult failResult = (keyErrorResult e, false)) := by
  constructor
  · intro hk
    simp [signatureCheckStep, hk]
  · intro e hk
    simp [signatureCheckStep, hk]

/-- C8: when a record is found for the requesting user by exact fingerprint
but no public key can be resolved for its owner (the key action returns
`null` or throws), the verification result keeps the found record's metadata,
differs from the NotFound verdict, differs from every generic-Error verdict
(which carries no record metadata), states in the `null` case that the image
exists but cannot be verified, and the Verifier is never invoked. -/
theorem keyUnavailable_distinct_outcome (store : ImageStore)
    (uid fileName fileHash : String) (rec : ImageRecord)
    (getKey : String → Except String (Option String))
    (checkSig : String → String → Except String Bool)
    (hFound : findImageByHashAction store fileHash uid = some rec)
    (hNoKey : getKey rec.userId = .ok none ∨ ∃ e, getKey rec.userId = .error e) :
    (verifyImageClient store uid fileName fileHash getKey checkSig).1.hasRecordMeta = true ∧
    (verifyImageClient store uid fileName fileHash getKey checkSig).1 ≠ notFoundResult ∧
    (∀ e, (verifyImageClient store uid fileName fileHash getKey checkSig).1 ≠ errorResult e) ∧
    (getKey rec.userId = .ok none →
      (verifyImageClient store uid fileName fileHash getKey checkSig).1 = keyMissingResult) ∧
    (∀ e, getKey rec.userId = .error e →
      (verifyImageClient store uid fileName fileHash getKey checkSig).1 = keyErrorResult e) ∧
    (verifyImageClient store uid fileName fileHash getKey checkSig).2 = false := by
  have hred : verifyImageClient store uid fileName fileHash getKey checkSig
      = signatureCheckStep rec getKey checkSig verifiedExactResult sigFailedExactResult := by
    simp only [verifyImageClient, hFound]
  have hne : ∀ a b : VerificationResult, a.hasRecordMeta ≠ b.hasRecordMeta → a ≠ b :=
    fun a b h he => h (he ▸ rfl)
  rcases hNoKey with hk | ⟨e0, hk⟩
  · have hstep := (signatureCheckStep_no_key rec getKey checkSig
      verifiedExactResult sigFailedExactResult).1 hk
    rw [hred, hstep]
    refine ⟨rfl, hne _ _ (by simp [keyMissingResult, notFoundResult]), ?_,
      fun _ => rfl, ?_, rfl⟩
    · intro e
      exact hne _ _ (by simp [keyMissingResult, errorResult])
    · intro e he
      rw [hk] at he
      exact absurd he (by simp)
  · have hstep := (signatureCheckStep_no_key rec getKey checkSig
      verifiedExactResult sigFailedExactResult).2 e0 hk
    rw [hred, hstep]
    refine ⟨rfl, hne _ _ (by simp [keyErrorResult, notFoundResult]), ?_, ?_, ?_, rfl⟩
    · intro e
      exact hne _ _ (by simp [keyErrorResult, errorResult])
    · intro h
      rw [hk] at h
      exact absurd h (by simp)
    · intro e he
      rw [hk] at he
      have : e0 = e := by simpa using he
      rw [this]

/-- Record for the C8 witness: found by exact fingerprint, but the owner's
key slot is unpopulated. -/
def keylessRec : ImageRecord :=
  { id := "4", fileName := "k.png", filePath := "u/4-k.png"
    fileSize := 3, fileType := "image/png", publicUrl := "url4"
    signature := "sigK", hash := "hK", createdAt := "2025-04-01", userId := "u" }

/-- Witness for C8: with the key action returning `null`, the result is the
found-but-unverifiable one and the Verifier never ran. -/
theorem keyUnavailable_distinct_outcome_witness :
    (verifyImageClient [keylessRec] "u" "k.png" "hK"
        (fun _ => Except.ok none) (fun _ _ => .ok true)).1 = keyMissingResult ∧
    (verifyImageClient [keylessRec] "u" "k.png" "hK"
        (fun _ => Except.ok none) (fun _ _ => .ok true)).2 = false := by
  constructor
  · exact (keyUnavailable_distinct_outcome [keylessRec] "u" "k.png" "hK" keylessRec
      (fun _ => Except.ok none) (fun _ _ => .ok true)
      (by decide) (Or.inl rfl)).2.2.2.1 rfl
  · exact (keyUnavailable_distinct_outcome [keylessRec] "u" "k.png" "hK" keylessRec
      (fun _ => Except.ok none) (fun _ _ => .ok true)
      (by decide) (Or.inl rfl)).2.2.2.2.2

/-- The `user_profiles` key slots: one `(user_id, public_key)` row per user
(the table has a uniqueness constraint on `user_id`). -/
abbrev KeyStore := List (String × String)

/-- Select the `public_key` of a user profile row. -/
def lookupKey (ks : KeyStore) (uid : String) : Option String :=
  (ks.find? (fun p => p.1 == uid)).map (fun p => p.2)

/-- Model of the supabase `upsert` on `user_profiles` with
`onConflict: "user_id"`: replace the row if present, insert otherwise. -/
def upsertKey : KeyStore → String → String → KeyStore
  | [], uid, k => [(uid, k)]
  | (u, v) :: tl, uid, k =>
    if u == uid then (uid, k) :: tl else (u, v) :: upsertKey tl uid k

/-- Model of the supabase `update ... eq("user_id", uid)`: change the row
only when it exists. -/
def updateKey : KeyStore → String → String → KeyStore
  | [], _, _ => []
  | (u, v) :: tl, uid, k =>
    if u == uid then (uid, k) :: tl else (u, v) :: updateKey tl uid k

/-- Result shape of `ensurePublicKeyAction` (src/app/actions/storage.ts). -/
structure KeyActionResult where
  success : Bool
  message : String
  privateKey : Option String
  publicKeyExists : Bool
deriving DecidableEq, Repr

/-- Generation tail of `ensurePublicKeyAction` (src/app/actions/storage.ts,
lines 153-215): upsert the fresh public key, then re-select it; an empty
saved key is falsy and fails the save verification. -/
def ensureGenerate (uid : String) (store : KeyStore) (freshPub freshPriv : String) :
    KeyActionResult × KeyStore :=
  let store2 := upsertKey store uid freshPub
  match lookupKey store2 uid with
  | some k =>
    if 0 < k.length then
      ({ success := true, message := "New key pair generated and public key saved"
         privateKey := some freshPriv, publicKeyExists := true }, store2)
    else
      ({ success := false, message := "Failed to verify public key was saved correctly"
         privateKey := none, publicKeyExists := false }, store2)
  | none =>
    ({ success := false, message := "Failed to verify public key was saved correctly"
       privateKey := none, publicKeyExists := false }, store2)

/-- Embedding of `ensurePublicKeyAction` (src/app/actions/storage.ts, lines
106-224).  `session` is the authenticated user, `freshPub`/`freshPriv` the
pair `generateRSAKeyPair` would produce on this call.  The stored key is
usable exactly when it is present and non-empty
(`existingProfile?.public_key && existingProfile.public_key.length > 0`);
otherwise a fresh pair is generated and its public half persisted. -/
def ensurePublicKeyAction (session : Option String) (store : KeyStore)
    (freshPub freshPriv : String) : KeyActionResult × KeyStore :=
  match session with
  | none =>
    ({ success := false, message := "User not authenticated"
       privateKey := none, publicKeyExists := false }, store)
  | some uid =>
    match lookupKey store uid with
    | some k =>
      if 0 < k.length then
        ({ success := true, message := "Public key already exists"
           privateKey := none, publicKeyExists := true }, store)
      else ensureGenerate uid store freshPub freshPriv
    | none => ensureGenerate uid store freshPub freshPriv

/-- The hardcoded default-key detection of `generateInitialKeysAction`
(src/app/actions/generate-initial-keys.ts, line 69). -/
def defaultKeyStart : String := "MIIBIjANBgkqhkiG9w0BAQEFAAOCAQ8AMIIBCgKCAQEAu5sVBczU9q"

/-- The placeholder public key seeded for every new user by the
`handle_new_user` trigger (src/unnamed/part_007, lines 80-96). -/
def placeholderPublicKey : String :=
  "MIIBIjANBgkqhkiG9w0BAQEFAAOCAQ8AMIIBCgKCAQEAu5sVBczU9qQCQzK5qvZn+QS5Hd/2FRK6Z+Yv9jSVEDIr0LrLXhCmGnmwMYEsuA9QA69TLLmS9TBxZ0qhH7gV1xNU+Jl80VYSQkxzJJJIKw0WJ0H5xzCEMJkCUUVEJCMvmLW8/yvMLKmxhwZZwIm2T+rhyxfYQGtPpvFAYiJZZrdYS1XyaGEZQUCV/CWH3r2yWJQE5+NjJc5wkUjkE9mh4GnlGVSRbMZXJZ8xUm7yYdN0UOvSlYnY4ilPTKpRJDq5Tww0TnGNyRpZdKO5zU7J9UhyTnwbJuAQW9XyD4Qo+XK+aLaGxgNKG5bVEd8pHcpuYRF3he8lvQQGXBQGGvvDZQIDAQAB"

/-- Character-list rendering of JavaScript `String.startsWith`: does the
second list begin with the first? -/
def leadsWith : List Char → List Char → Bool
  | [], _ => true
  | _ :: _, [] => false
  | a :: as, b :: bs => a == b && leadsWith as bs

/-- Result shape of `generateInitialKeysAction`
(src/app/actions/generate-initial-keys.ts). -/
structure GenerateKeysResult where
  success : Bool
  message : String
  privateKey : Option String
  needsKeys : Bool
deriving DecidableEq, Repr

/-- Embedding of `generateInitialKeysAction`
(src/app/actions/generate-initial-keys.ts, lines 21-122): a missing profile
row makes `.single()` fail; a stored key starting with the default-key
material is replaced by a fresh pair; any other key is kept. -/
def generateInitialKeysAction (session : Option String) (store : KeyStore)
    (freshPub freshPriv : String) : GenerateKeysResult × KeyStore :=
  match session with
  | none =>
    ({ success := false, message := "User not authenticated"
       privateKey := none, needsKeys := false }, store)
  | some uid =>
    match lookupKey store uid with
    | none =>
      ({ success := false, message := "Failed to check profile"
         privateKey := none, needsKeys := false }, store)
    | some k =>
      if leadsWith defaultKeyStart.data k.data then
        ({ success := true, message := "Keys generated successfully"
           privateKey := some freshPriv, needsKeys := true }, updateKey store uid freshPub)
      else
        ({ success := true, message := "User already has a key pair"
           privateKey := none, needsKeys := false }, store)

/-- C4 counterexample: for a user whose stored key is exactly the seeded
placeholder, `ensurePublicKeyAction` reports an existing key, generates
nothing, returns no private key, and leaves the store untouched — the
placeholder is NOT treated as unusable by this action. -/
theorem ensurePublicKey_placeholder_counterexample :
    (ensurePublicKeyAction (some "u") [("u", placeholderPublicKey)] "NEWPUB" "NEWPRIV").1.publicKeyExists = true ∧
    (ensurePublicKeyAction (some "u") [("u", placeholderPublicKey)] "NEWPUB" "NEWPRIV").1.privateKey = none ∧
    (ensurePublicKeyAction (some "u") [("u", placeholderPublicKey)] "NEWPUB" "NEWPRIV").1.message
      = "Public key already exists" ∧
    (ensurePublicKeyAction (some "u") [("u", placeholderPublicKey)] "NEWPUB" "NEWPRIV").2
      = [("u", placeholderPublicKey)] := by
  refine ⟨by decide, by decide, by decide, by decide⟩

/-- C4 amended: `ensurePublicKeyAction` treats every present, non-empty
stored key — the placeholder included — as usable and does not regenerate;
the placeholder detection (a prefix match against the seeded default-key
material) lives in `generateInitialKeysAction`, which replaces such a key
with a freshly generated pair and returns the new private key. -/
theorem placeholder_handling_amended (uid k freshPub freshPriv : String)
    (store : KeyStore) (hlk : lookupKey store uid = some k) (hne : 0 < k.length) :
    ensurePublicKeyAction (some uid) store freshPub freshPriv
      = ({ success := true, message := "Public key already exists"
           privateKey := none, publicKeyExists := true }, store) ∧
    (leadsWith defaultKeyStart.data k.data = true →
      generateInitialKeysAction (some uid) store freshPub freshPriv
        = ({ success := true, message := "Keys generated successfully"
             privateKey := some freshPriv, needsKeys := true }, updateKey store uid freshPub)) := by
  constructor
  · simp only [ensurePublicKeyAction, hlk, if_pos hne]
  · intro hdef
    simp only [generateInitialKeysAction, hlk, hdef, if_true]

/-- Witness for the amended C4: on a store holding the seeded placeholder,
`ensurePublicKeyAction` keeps it, while `generateInitialKeysAction` replaces
it with the fresh key. -/
theorem placeholder_handling_amended_witness :
    ensurePublicKeyAction (some "u") [("u", placeholderPublicKey)] "NP" "NK"
      = ({ success := true, message := "Public key already exists"
           privateKey := none, publicKeyExists := true }, [("u", placeholderPublicKey)]) ∧
    generateInitialKeysAction (some "u") [("u", placeholderPublicKey)] "NP" "NK"
      = ({ success := true, message := "Keys generated successfully"
           privateKey := some "NK", needsKeys := true }, [("u", "NP")]) := by
  have h := placeholder_handling_amended "u" placeholderPublicKey "NP" "NK"
    [("u", placeholderPublicKey)] (by decide) (by decide)
  refine ⟨h.1, ?_⟩
  rw [h.2 (by decide)]
  decide

/-- C5 counterexample: for a never-before-seen user, the FIRST call of
`ensurePublicKeyAction` already reports `publicKeyExists = true` (together
with the fresh private key) — it does not return `exists: false`. -/
theorem ensurePublicKey_first_call_counterexample :
    (ensurePublicKeyAction (some "u") [] "PUB1" "PRIV1").1.publicKeyExists = true ∧
    (ensurePublicKeyAction (some "u") [] "PUB1" "PRIV1").1.privateKey = some "PRIV1" := by
  refine ⟨by decide, by decide⟩

/-- C5 amended: called twice in sequence for a user with no prior key row,
the first call generates, persists the fresh public key and returns the new
private key export with `publicKeyExists = true`; the second call reports the
existing key with no private key; the persisted public key is unchanged
between the two calls. -/
theorem ensurePublicKey_twice_amended (uid freshPub freshPriv pub2 priv2 : String)
    (hpub : 0 < freshPub.length) :
    (ensurePublicKeyAction (some uid) [] freshPub freshPriv).1
      = { success := true, message := "New key pair generated and public key saved"
          privateKey := some freshPriv, publicKeyExists := true } ∧
    (ensurePublicKeyAction (some uid) [] freshPub freshPriv).2 = [(uid, freshPub)] ∧
    ensurePublicKeyAction (some uid) [(uid, freshPub)] pub2 priv2
      = ({ success := true, message := "Public key already exists"
           privateKey := none, publicKeyExists := true }, [(uid, freshPub)]) ∧
    lookupKey (ensurePublicKeyAction (some uid) [(uid, freshPub)] pub2 priv2).2 uid
      = lookupKey (ensurePublicKeyAction (some uid) [] freshPub freshPriv).2 uid := by
  have hlk : lookupKey [(uid, freshPub)] uid = some freshPub := by
    simp [lookupKey, List.find?]
  have h1 : ensurePublicKeyAction (some uid) [] freshPub freshPriv
      = ({ success := true, message := "New key pair generated and public key saved"
           privateKey := some freshPriv, publicKeyExists := true }, [(uid, freshPub)]) := by
    have hemp : lookupKey [] uid = none := rfl
    simp only [ensurePublicKeyAction, hemp, ensureGenerate, upsertKey]
    rw [hlk]
    simp [hpub]
  have h2 : ensurePublicKeyAction (some uid) [(uid, freshPub)] pub2 priv2
      = ({ success := true, message := "Public key already exists"
           privateKey := none, publicKeyExists := true }, [(uid, freshPub)]) := by
    simp only [ensurePublicKeyAction, hlk, if_pos hpub]
  refine ⟨by rw [h1], by rw [h1], h2, by rw [h1, h2]⟩

/-- Witness for the amended C5 at a concrete fresh user. -/
theorem ensurePublicKey_twice_amended_witness :
    (ensurePublicKeyAction (some "w") [] "PUBW" "PRIVW").1
      = { success := true, message := "New key pair generated and public key saved"
          privateKey := some "PRIVW", publicKeyExists := true } ∧
    ensurePublicKeyAction (some "w") [("w", "PUBW")] "PUB2" "PRIV2"
      = ({ success := true, message := "Public key already exists"
           privateKey := none, publicKeyExists := true }, [("w", "PUBW")]) := by
  have h := ensurePublicKey_twice_amended "w" "PUBW" "PRIVW" "PUB2" "PRIV2" (by decide)
  exact ⟨h.1, h.2.2.1⟩

/-- The platform primitives used by src/unnamed/part_009 (`crypto.subtle` and
the base64 codec `btoa`/`atob`): a 256-bit digest, RSA-PSS sign/verify taking
an explicit salt length (and, for signing, the random salt draw), SPKI key
import, and the base64 transport codec.  `atob` is partial: it rejects
malformed base64 text. -/
structure WebCryptoEnv where
  sha256 : List Nat → List Nat
  pssSign : Nat → List Nat → String → Nat → List Nat
  pssVerify : Nat → List Nat → List Nat → String → Bool
  importSpki : List Nat → Option String
  atob : String → Option (List Nat)
  btoa : List Nat → String

/-- Embedding of `signFile` (src/unnamed/part_009, lines 237-259): digest the
file bytes with SHA-256, sign the digest with RSA-PSS at salt length 32, and
return the signature bytes base64-encoded. -/
def signFile (E : WebCryptoEnv) (fileBytes : List Nat) (privateKey : String)
    (rand : Nat) : String :=
  E.btoa (E.pssSign 32 (E.sha256 fileBytes) privateKey rand)

/-- Embedding of `verifyFileSignature` (src/unnamed/part_009, lines 268-299):
digest the file bytes with SHA-256, base64-decode the signature (malformed
text throws), and check it with RSA-PSS at salt length 32; a non-matching
signature is the normal value `false`. -/
def verifyFileSignature (E : WebCryptoEnv) (fileBytes : List Nat)
    (signature : String) (publicKey : String) : Except String Bool :=
  match E.atob signature with
  | none => .error "InvalidCharacterError"
  | some sigBytes => .ok (E.pssVerify 32 (E.sha256 fileBytes) sigBytes publicKey)

/-- Embedding of `importPublicKey` (src/unnamed/part_009, lines 133-162):
base64-decode the key text (malformed text throws), then import the SPKI
bytes (rejecting on malformed key material). -/
def importPublicKey (E : WebCryptoEnv) (publicKeyString : String) :
    Except String String :=
  match E.atob publicKeyString with
  | none => .error "InvalidCharacterError"
  | some bytes =>
    match E.importSpki bytes with
    | none => .error "DataError"
    | some k => .ok k

/-- C6: `signFile` and `verifyFileSignature` both digest the same file bytes
with SHA-256 and use the same fixed salt length 32, so whenever the base64
transport is lossless on the produced signature and the key pair matches
(the RSA-PSS primitive accepts its own signature under the paired public
key), the round trip returns `ok true`; under a key that rejects the
signature (a mismatched pair) it returns the normal value `ok false`. -/
theorem signFile_verify_roundtrip (E : WebCryptoEnv) (fileBytes : List Nat)
    (priv pub pub2 : String) (rand : Nat)
    (hb64 : E.atob (E.btoa (E.pssSign 32 (E.sha256 fileBytes) priv rand))
      = some (E.pssSign 32 (E.sha256 fileBytes) priv rand))
    (hmatch : E.pssVerify 32 (E.sha256 fileBytes)
      (E.pssSign 32 (E.sha256 fileBytes) priv rand) pub = true)
    (hmismatch : E.pssVerify 32 (E.sha256 fileBytes)
      (E.pssSign 32 (E.sha256 fileBytes) priv rand) pub2 = false) :
    verifyFileSignature E fileBytes (signFile E fileBytes priv rand) pub = .ok true ∧
    verifyFileSignature E fileBytes (signFile E fileBytes priv rand) pub2 = .ok false := by
  constructor
  · simp only [verifyFileSignature, signFile, hb64, hmatch]
  · simp only [verifyFileSignature, signFile, hb64, hmismatch]

/-- A toy instantiation of the platform primitives, used to exercise the
theorems at concrete inputs: bytes travel as character codes, a key signs by
appending its length, and verification recomputes that tag. -/
def toyEnv : WebCryptoEnv where
  sha256 := fun b => b
  pssSign := fun _ d priv _ => d ++ [priv.length]
  pssVerify := fun _ d s pub => s == d ++ [pub.length]
  importSpki := fun b => if b = [] then none else some "KEY"
  atob := fun s => if s = "" then none else some (s.data.map Char.toNat)
  btoa := fun b => String.mk (b.map Char.ofNat)

/-- Witness for C6 on the toy environment: the matching pair verifies to
`ok true` and the mismatched key to `ok false`. -/
theorem signFile_verify_roundtrip_witness :
    verifyFileSignature toyEnv [1, 2] (signFile toyEnv [1, 2] "k" 0) "k" = .ok true ∧
    verifyFileSignature toyEnv [1, 2] (signFile toyEnv [1, 2] "k" 0) "kk" = .ok false := by
  exact signFile_verify_roundtrip toyEnv [1, 2] "k" "k" "kk" 0
    (by decide) (by decide) (by decide)

/-- C7: `verifyFileSignature` produces an error only when the signature text
is not valid base64 — on any well-formed signature it returns the primitive
verification outcome as a normal boolean (in particular a mismatch is
`ok false`, not an error); and `importPublicKey` errs exactly on key text
that is not valid base64 or key bytes that fail the SPKI import. -/
theorem verifyFileSignature_error_discipline (E : WebCryptoEnv)
    (fileBytes : List Nat) (sig pub keyStr : String) :
    (∀ sigBytes, E.atob sig = some sigBytes →
      verifyFileSignature E fileBytes sig pub
        = .ok (E.pssVerify 32 (E.sha256 fileBytes) sigBytes pub)) ∧
    ((∃ e, verifyFileSignature E fileBytes sig pub = .error e) ↔ E.atob sig = none) ∧
    ((∃ e, importPublicKey E keyStr = .error e) ↔
      (E.atob keyStr = none ∨
        ∃ b, E.atob keyStr = some b ∧ E.importSpki b = none)) := by
  refine ⟨?_, ?_, ?_⟩
  · intro sigBytes hs
    simp only [verifyFileSignature, hs]
  · constructor
    · rintro ⟨e, he⟩
      rcases ha : E.atob sig with _ | sigBytes
      · rfl
      · rw [verifyFileSignature, ha] at he
        exact absurd he (by simp)
    · intro ha
      exact ⟨"InvalidCharacterError", by rw [verifyFileSignature, ha]⟩
  · constructor
    · rintro ⟨e, he⟩
      rcases ha : E.atob keyStr with _ | bytes
      · exact Or.inl rfl
      · rcases hi : E.importSpki bytes with _ | k
        · exact Or.inr ⟨bytes, rfl, hi⟩
        · have hok : importPublicKey E keyStr = .ok k := by
            simp [importPublicKey, ha, hi]
          rw [hok] at he
          exact absurd he (by simp)
    · rintro (ha | ⟨b, ha, hi⟩)
      · exact ⟨"InvalidCharacterError", by rw [importPublicKey, ha]⟩
      · exact ⟨"DataError", by simp [importPublicKey, ha, hi]⟩

/-- Witness for C7 on the toy environment: a decodable but non-matching
signature yields `ok false` (no error), and the empty string — rejected by
`atob` — yields an error for both operations. -/
theorem verifyFileSignature_error_discipline_witness :
    verifyFileSignature toyEnv [1, 2] "zz" "k" = .ok false ∧
    (∃ e, verifyFileSignature toyEnv [1, 2] "" "k" = .error e) ∧
    (∃ e, importPublicKey toyEnv "" = .error e) := by
  refine ⟨?_, ?_, ?_⟩
  · have h := (verifyFileSignature_error_discipline toyEnv [1, 2] "zz" "k" "").1
      (("zz").data.map Char.toNat) (by decide)
    have hv : toyEnv.pssVerify 32 (toyEnv.sha256 [1, 2])
        (("zz").data.map Char.toNat) "k" = false := by decide
    rw [h, hv]
  · exact (verifyFileSignature_error_discipline toyEnv [1, 2] "" "k" "").2.1.mpr (by decide)
  · exact (verifyFileSignature_error_discipline toyEnv [1, 2] "" "k" "").2.2.mpr
      (Or.inl (by decide))

/-- The caller-supplied parameters of `uploadImageMetadata`
(src/app/actions/images.ts, lines 7-14): note there is no user-id field. -/
structure UploadImageParams where
  fileName : String
  filePath : String
  fileHash : String
  signature : String
  fileSize : Nat
  fileType : String
deriving DecidableEq, Repr

/-- Result shape of `uploadImageMetadata`. -/
structure UploadResult where
  success : Bool
  error : Option String
deriving DecidableEq, Repr

/-- Embedding of `uploadImageMetadata` (src/app/actions/images.ts, lines
25-87): the inserted row takes `user_id` from the authenticated session user;
with no session user the action fails without touching the store.  `newId`,
`supabaseUrl` and `now` stand for the generated row id, the environment URL
and the insertion timestamp; `insertOk` models whether the database insert
succeeds. -/
def uploadImageMetadata (session : Option String) (store : ImageStore)
    (params : UploadImageParams) (newId supabaseUrl now : String)
    (insertOk : Bool) : UploadResult × ImageStore :=
  match session with
  | none => ({ success := false, error := some "User not authenticated" }, store)
  | some uid =>
    if insertOk then
      ({ success := true, error := none },
        { id := newId
          fileName := params.fileName
          filePath := params.filePath
          fileSize := params.fileSize
          fileType := params.fileType
          publicUrl := supabaseUrl ++ "/storage/v1/object/public/images/" ++ params.filePath
          signature := params.signature
          hash := params.fileHash
          createdAt := now
          userId := uid } :: store)
    else
      ({ success := false, error := some "Failed to save image metadata" }, store)

/-- C10: every record inserted by `uploadImageMetadata` carries the
authenticated session user as its owner — the caller-supplied parameters
cannot influence it (they have no user-id field) — and with no authenticated
user the action fails and the store is unchanged. -/
theorem uploadImageMetadata_owner_from_session (session : Option String)
    (store : ImageStore) (params : UploadImageParams)
    (newId supabaseUrl now : String) (insertOk : Bool) :
    (∀ r, r ∈ (uploadImageMetadata session store params newId supabaseUrl now insertOk).2 →
      r ∈ store ∨ ∃ uid, session = some uid ∧ r.userId = uid) ∧
    (session = none →
      uploadImageMetadata session store params newId supabaseUrl now insertOk
        = ({ success := false, error := some "User not authenticated" }, store)) := by
  constructor
  · intro r hr
    cases session with
    | none => exact Or.inl hr
    | some uid =>
      cases hins : insertOk with
      | false =>
        simp only [uploadImageMetadata, hins] at hr
        exact Or.inl hr
      | true =>
        simp only [uploadImageMetadata, hins] at hr
        cases hr with
        | head => exact Or.inr ⟨uid, rfl, rfl⟩
        | tail _ hmem => exact Or.inl hmem
  · intro hs
    rw [hs]
    rfl

/-- Witness for C10: inserting into the empty store as user `"carol"` yields
exactly one record, owned by `"carol"`; with no session the store is kept. -/
theorem uploadImageMetadata_owner_from_session_witness :
    (∀ r, r ∈ (uploadImageMetadata (some "carol") []
        { fileName := "c.png", filePath := "carol/c.png", fileHash := "hC"
          signature := "sC", fileSize := 5, fileType := "image/png" }
        "9" "https://sb" "2025-05-01" true).2 →
      r ∈ ([] : ImageStore) ∨ ∃ uid, (some "carol" : Option String) = some uid ∧ r.userId = uid) ∧
    uploadImageMetadata none []
        { fileName := "c.png", filePath := "carol/c.png", fileHash := "hC"
          signature := "sC", fileSize := 5, fileType := "image/png" }
        "9" "https://sb" "2025-05-01" true
      = ({ success := false, error := some "User not authenticated" }, []) := by
  constructor
  · exact (uploadImageMetadata_owner_from_session (some "carol") []
      { fileName := "c.png", filePath := "carol/c.png", fileHash := "hC"
        signature := "sC", fileSize := 5, fileType := "image/png" }
      "9" "https://sb" "2025-05-01" true).1
  · exact (uploadImageMetadata_owner_from_session none []
      { fileName := "c.png", filePath := "carol/c.png", fileHash := "hC"
        signature := "sC", fileSize := 5, fileType := "image/png" }
      "9" "https://sb" "2025-05-01" true).2 rfl
